import Mathlib

/-!
Shallow embedding of the AgriShield-AI repository (two source files:
`src/ml/train_plantvillage.py` and `src/backend/main.py`) together with
theorems settling the specification claims about it.
-/

namespace AgriShield

/-! ### Python environment and integer parsing

`train_plantvillage.py` reads its configuration from environment
variables (lines 8-13), converting `EPOCHS` and `EPOCHS_FINE` with the
Python builtin `int(...)`.  We model the environment as an association
list and `int` on strings by Python semantics: surrounding whitespace is
stripped, an optional sign is allowed, and the body is a nonempty group
of decimal digits in which single underscores may separate digits. -/

/-- The process environment: variable names mapped to values. -/
structure PyEnv where
  vars : List (String × String)

/-- `os.environ.get(key, dflt)`. -/
def PyEnv.getd (e : PyEnv) (key dflt : String) : String :=
  match e.vars.lookup key with
  | some v => v
  | none => dflt

/-- Accepts a nonempty digit sequence where single underscores may occur
between digits (Python 3 integer-literal grouping): `10`, `1_0` are
accepted; ``, `_1`, `1_`, `1__0`, `abc` are not. -/
def digitGroups : List Char → Bool
  | [] => false
  | [c] => c.isDigit
  | c :: '_' :: rest => c.isDigit && digitGroups rest
  | c :: d :: rest => c.isDigit && digitGroups (d :: rest)

/-- Numeric value of a digit list (underscores removed beforehand). -/
def digitsVal (l : List Char) : Nat :=
  l.foldl (fun a c => a * 10 + (c.toNat - 48)) 0

/-- Surrounding whitespace removal, as Python `int` strips its string
argument. -/
def stripWS (l : List Char) : List Char :=
  ((l.dropWhile Char.isWhitespace).reverse.dropWhile Char.isWhitespace).reverse

/-- Python `int(s)` on a string: `some n` on success, `none` when the
string does not parse as an integer (in which case Python raises
`ValueError`). -/
def pyInt? (s : String) : Option Int :=
  let core : List Char → Option Int := fun l =>
    if digitGroups l then some (digitsVal (l.filter (fun c => c ≠ '_')) : Int)
    else none
  match stripWS s.data with
  | '+' :: rest => core rest
  | '-' :: rest => (core rest).map (fun n => -n)
  | l => core l

/-! ### The dataset on disk

The dataset root contains one subdirectory per class; `class_names` (line
40) is the list of those subdirectory names, and lines 83-89 count the
plain files inside each. -/

/-- A dataset directory: each class subdirectory name with its file count,
in the (sorted) order `image_dataset_from_directory` reports them. -/
structure Dataset where
  classes : List (String × Nat)

/-- `class_names` (line 40): the class subdirectory names in order. -/
def Dataset.classNames (ds : Dataset) : List String := ds.classes.map Prod.fst

/-- The per-class file counts, in the same order (lines 83-89). -/
def Dataset.counts (ds : Dataset) : List Nat := ds.classes.map Prod.snd

/-! ### Class weights (lines 83-93)

`total` sums the per-class file counts and `class_weight[i] = total /
(num_classes * max(c, 1))` for the `i`-th count `c`.  Python float
division is modelled over `ℚ`. -/

/-- The `class_weight` table (lines 91-93), one weight per class in class
order: `total / (num_classes * max(c, 1))`. -/
def classWeights (counts : List Nat) : List ℚ :=
  counts.map (fun c => (counts.sum : ℚ) / ((counts.length : ℚ) * (max c 1 : ℕ)))

/-! ### The two training phases (lines 55-117)

Phase 1 compiles with Adam on a cosine-decay schedule starting at 1e-3
over `EPOCHS * 1000` steps, the backbone frozen; phase 2 sets
`base_model.trainable = True` and recompiles with Adam at the fixed rate
1e-5.  Both compiles use `SparseCategoricalCrossentropy(label_smoothing
= 0.1)` and both fits pass the same `class_weight` table.  The script is
straight-line: the second fit follows the first unconditionally. -/

/-- A Keras learning-rate specification: either a cosine-decay schedule
or a constant rate. -/
inductive LRSchedule
  | cosineDecay (initialLearningRate : ℚ) (decaySteps : Int)
  | constant (rate : ℚ)
deriving DecidableEq

/-- Which cross-entropy loss class is constructed. -/
inductive LossKind
  | sparseCategoricalCrossentropy
  | categoricalCrossentropy
deriving DecidableEq

/-- A loss specification as passed to `model.compile`. -/
structure LossSpec where
  kind : LossKind
  labelSmoothing : ℚ
deriving DecidableEq

/-- Everything that characterises one training phase of the script:
whether the backbone is trainable, the optimizer's learning rate, the
loss passed to `compile`, and whether `fit` receives the class-weight
table. -/
structure PhaseConfig where
  baseModelTrainable : Bool
  schedule : LRSchedule
  loss : LossSpec
  usesClassWeight : Bool
deriving DecidableEq

/-- Phase 1 (lines 55-101): backbone frozen, cosine decay from 1e-3 over
`EPOCHS * 1000` steps, sparse categorical cross-entropy with label
smoothing 0.1, fit with `class_weight`. -/
def phase1 (epochs : Int) : PhaseConfig :=
  { baseModelTrainable := false
  , schedule := .cosineDecay (1 / 1000) (epochs * 1000)
  , loss := { kind := .sparseCategoricalCrossentropy, labelSmoothing := 1 / 10 }
  , usesClassWeight := true }

/-- Phase 2 (lines 103-117): backbone unfrozen, fixed learning rate 1e-5,
same loss, fit with the same `class_weight`. -/
def phase2 : PhaseConfig :=
  { baseModelTrainable := true
  , schedule := .constant (1 / 100000)
  , loss := { kind := .sparseCategoricalCrossentropy, labelSmoothing := 1 / 10 }
  , usesClassWeight := true }

/-- The phases the script executes, in order.  The script is
straight-line, so the list does not depend on how phase 1 ended; the
`phase1EarlyStopped` flag records whether `EarlyStopping` fired during
the first fit and is deliberately unused, mirroring the absence of any
conditional between the two `model.fit` calls. -/
def trainingPhases (epochs : Int) (phase1EarlyStopped : Bool) : List PhaseConfig :=
  [phase1 epochs, phase2]

/-! ### Model head and class-name file (lines 58-65 and 119-123)

The final layer is `Dense(num_classes, activation="softmax")` with
`num_classes = len(class_names)`; at the end the script writes each name
of `class_names`, in order, as one line of `class_names.txt`. -/

/-- The final dense layer (line 64). -/
structure DenseLayer where
  units : Nat
  activation : String
deriving DecidableEq

/-- `Dense(num_classes, activation="softmax")` where `num_classes =
len(class_names)` (lines 41 and 64). -/
def outputLayer (classNames : List String) : DenseLayer :=
  { units := classNames.length, activation := "softmax" }

/-- The successive strings passed to `f.write` by the loop at lines
121-123: one `name + "\n"` per entry of `class_names`, in order. -/
def classNamesFileWrites (classNames : List String) : List String :=
  classNames.map (fun name => name ++ "\n")

/-! ### Data augmentation (lines 47-53, 58-61)

`data_augmentation` is a fixed `Sequential` of five random layers; it is
applied inside the model graph right after the input.  Keras random
preprocessing layers transform their input only when called in training
mode and are the identity otherwise; `model.fit` evaluates validation
data in inference mode. -/

/-- One layer of the `data_augmentation` `Sequential`. -/
inductive AugLayer
  | randomFlip (mode : String)
  | randomRotation (factor : ℚ)
  | randomZoom (factor : ℚ)
  | randomContrast (factor : ℚ)
  | randomBrightness (factor : ℚ)
deriving DecidableEq

/-- The `data_augmentation` pipeline (lines 47-53), in layer order. -/
def data_augmentation : List AugLayer :=
  [ .randomFlip "horizontal"
  , .randomRotation (1 / 10)
  , .randomZoom (3 / 20)
  , .randomContrast (1 / 5)
  , .randomBrightness (1 / 5) ]

/-- Keras random preprocessing layers are active exactly in training
mode: during a `fit` training step they transform the batch, during
validation (inference mode) they are the identity. -/
def augmentationActive (trainingMode : Bool) : Bool := trainingMode

/-- `model.fit` evaluates validation batches in inference mode. -/
def validationMode : Bool := false

/-- Training batches are processed in training mode. -/
def trainingMode : Bool := true

/-! ### Dataset loading (lines 20-38)

Both `image_dataset_from_directory` calls pass the same directory,
`validation_split=0.2` and `seed=123`, differing only in `subset`.  The
loader sorts the file paths, deterministically shuffles them with the
given seed, and takes the last `int(0.2 * n)` files as validation and
the rest as training.  We model the seeded shuffle as an arbitrary pure
function of the seed and the file list. -/

/-- The arguments of one `image_dataset_from_directory` call. -/
structure LoaderArgs where
  directory : String
  validationSplit : ℚ
  subsetName : String
  seed : Nat
  imageSize : Nat × Nat
  batchSize : Nat
  labelMode : String
deriving DecidableEq

/-- The `train_ds` loader call (lines 20-28). -/
def trainDsArgs (dataDir : String) : LoaderArgs :=
  { directory := dataDir, validationSplit := 1 / 5, subsetName := "training"
  , seed := 123, imageSize := (224, 224), batchSize := 32, labelMode := "int" }

/-- The `val_ds` loader call (lines 30-38). -/
def valDsArgs (dataDir : String) : LoaderArgs :=
  { directory := dataDir, validationSplit := 1 / 5, subsetName := "validation"
  , seed := 123, imageSize := (224, 224), batchSize := 32, labelMode := "int" }

/-- The train/validation partition produced by
`image_dataset_from_directory` for a given seeded-shuffle function
`shuffle`, file list and seed: the shuffled list is split so that the
last fifth (`int(0.2 * n)` files) is validation and the first four
fifths are training. -/
def datasetSplit (shuffle : Nat → List String → List String)
    (files : List String) (seed : Nat) : List String × List String :=
  let shuffled := shuffle seed files
  let n := shuffled.length
  let numVal := n / 5
  (shuffled.take (n - numVal), shuffled.drop (n - numVal))

end AgriShield

namespace AgriShield.Backend

/-! ### The FastAPI backend (`src/backend/main.py`)

Two GET routes, both pure functions of the request alone, plus a CORS
middleware configuration. -/

/-- An HTTP response: status code and JSON-object body as key/value
pairs. -/
structure Response where
  status : Nat
  body : List (String × String)
deriving DecidableEq

/-- The requests the app routes. -/
inductive Request
  | root
  | health
deriving DecidableEq

/-- Handler of `GET /` (lines 21-23). -/
def read_root : Response :=
  { status := 200
  , body := [("message", "Welcome to AgriShield AI Backend"), ("status", "active")] }

/-- Handler of `GET /health` (lines 25-27). -/
def health_check : Response :=
  { status := 200, body := [("status", "healthy")] }

/-- Request dispatch. -/
def handle : Request → Response
  | .root => read_root
  | .health => health_check

/-- Serving a request after some history of earlier requests.  The
handlers close over no mutable state, so the history is unused. -/
def serve (history : List Request) (r : Request) : Response := handle r

/-- The configured origin allow-list (lines 7-11). -/
def origins : List String :=
  ["http://localhost:5173", "http://localhost:3000", "*"]

/-- The CORS middleware configuration (lines 13-19). -/
structure CORSConfig where
  allowOrigins : List String
  allowCredentials : Bool
  allowMethods : List String
  allowHeaders : List String
deriving DecidableEq

/-- `app.add_middleware(CORSMiddleware, ...)` as configured. -/
def corsConfig : CORSConfig :=
  { allowOrigins := origins
  , allowCredentials := true
  , allowMethods := ["*"]
  , allowHeaders := ["*"] }

/-- Whether the middleware permits a request from `origin`: it is
permitted when listed, and when the wildcard `"*"` is present every
origin is permitted. -/
def originAllowed (cfg : CORSConfig) (origin : String) : Bool :=
  cfg.allowOrigins.contains origin || cfg.allowOrigins.contains "*"

end AgriShield.Backend

namespace AgriShield

/-! ### The whole training run (`train_plantvillage.py` top to bottom)

The script, as a function of the environment, whether the dataset root
exists, and the dataset contents: configuration parsing (lines 8-13),
the directory guard (lines 15-18), then — when training completes — the
artifacts written (`best_model.h5` by the checkpoint callback, the saved
model at `OUTPUT_PATH`, and `class_names.txt`, lines 75-123).  An
uncaught `ValueError` from `int(...)` terminates the interpreter with
exit code 1 before any script `print` runs. -/

/-- The observable outcome of one run of the script: exit code, the
lines the script printed, the artifact files created, and the lines
written to `class_names.txt` (empty when it was not written). -/
structure RunResult where
  exitCode : Nat
  printed : List String
  artifacts : List String
  classNamesFile : List String
deriving DecidableEq

/-- The training script, line by line: parse `EPOCHS` then `EPOCHS_FINE`
(lines 11-12; an unparsable value raises `ValueError`, ending the
process with exit code 1, nothing printed by the script, nothing
written); then the dataset-directory guard (lines 15-18: two diagnostic
prints and `sys.exit(1)`); otherwise the run trains and writes
`best_model.h5`, the model at `OUTPUT_PATH`, and `class_names.txt`
holding each class name on its own line. -/
def runTrain (env : PyEnv) (dirExists : Bool) (ds : Dataset) : RunResult :=
  match pyInt? (env.getd "EPOCHS" "10") with
  | none => { exitCode := 1, printed := [], artifacts := [], classNamesFile := [] }
  | some _ =>
    match pyInt? (env.getd "EPOCHS_FINE" "5") with
    | none => { exitCode := 1, printed := [], artifacts := [], classNamesFile := [] }
    | some _ =>
      if dirExists then
        { exitCode := 0
        , printed := []
        , artifacts := ["best_model.h5", env.getd "OUTPUT_PATH" "model.h5", "class_names.txt"]
        , classNamesFile := ds.classNames }
      else
        { exitCode := 1
        , printed :=
            [ "Missing dataset directory: " ++ env.getd "PLANTVILLAGE_DIR" "data/plantvillage"
            , "Set PLANTVILLAGE_DIR to the root containing class subfolders." ]
        , artifacts := []
        , classNamesFile := [] }

end AgriShield

namespace AgriShield

/-! ## Claim theorems -/

/-- C1: the sequence of names written to `class_names.txt` (one name per
line) is exactly the class-name sequence sizing and ordering the final
dense layer: for any class-name list, the file has as many lines as the
dense layer has units, and the `i`-th written line is the `i`-th class
name (followed by a newline), so line `i` corresponds to output unit
`i`. -/
theorem classNamesFile_matches_outputLayer (classNames : List String) :
    (classNamesFileWrites classNames).length = (outputLayer classNames).units ∧
    ∀ i : Nat, (classNamesFileWrites classNames).get? i =
      (classNames.get? i).map (fun name => name ++ "\n") := by
  refine ⟨?_, ?_⟩
  · simp [classNamesFileWrites, outputLayer]
  · intro i
    simp [classNamesFileWrites]

/-- C2: the class-weight table maps the `i`-th class (with count `c`) to
`total / (num_classes * max(c, 1))`, and on a 3-class dataset with
counts 10, 20, 30 the weights are 60/(3*10), 60/(3*20), 60/(3*30). -/
theorem classWeights_correct :
    (∀ (counts : List Nat) (i c : Nat), counts.get? i = some c →
        (classWeights counts).get? i =
          some ((counts.sum : ℚ) / ((counts.length : ℚ) * (max c 1 : ℕ)))) ∧
    classWeights [10, 20, 30] =
      [60 / (3 * 10), 60 / (3 * 20), 60 / (3 * 30)] := by
  refine ⟨?_, ?_⟩
  · intro counts i c h
    rw [classWeights, List.get?_map, h]
    rfl
  · norm_num [classWeights]

/-- C2 witness: the general formula evaluated on the middle class of the
3-class dataset with counts 10, 20, 30. -/
theorem classWeights_correct_witness :
    ([10, 20, 30] : List Nat).get? 1 = some 20 ∧
    (classWeights [10, 20, 30]).get? 1 =
      some ((([10, 20, 30] : List Nat).sum : ℚ) /
        ((([10, 20, 30] : List Nat).length : ℚ) * (max 20 1 : ℕ))) :=
  ⟨rfl, classWeights_correct.1 [10, 20, 30] 1 20 rfl⟩

/-- C3: every phase the script runs fits with sparse categorical
cross-entropy (the integer-label form of categorical cross-entropy)
with label smoothing 0.1 and passes the class-weight table to `fit`;
the second compile uses the same loss and the same class weighting as
the first. -/
theorem loss_same_both_phases (epochs : Int) (stopped : Bool) :
    (∀ p ∈ trainingPhases epochs stopped,
        p.loss = { kind := .sparseCategoricalCrossentropy, labelSmoothing := 1 / 10 } ∧
        p.usesClassWeight = true) ∧
    phase2.loss = (phase1 epochs).loss ∧
    phase2.usesClassWeight = (phase1 epochs).usesClassWeight := by
  refine ⟨?_, rfl, rfl⟩
  intro p hp
  simp only [trainingPhases, List.mem_cons, List.not_mem_nil, or_false] at hp
  rcases hp with h | h <;> subst h <;> exact ⟨rfl, rfl⟩

/-- C3 witness: phase 2 of a 10-epoch run is in the phase list and
satisfies the loss and weighting properties. -/
theorem loss_same_both_phases_witness :
    phase2 ∈ trainingPhases 10 false ∧
    (phase2.loss = { kind := .sparseCategoricalCrossentropy, labelSmoothing := 1 / 10 } ∧
      phase2.usesClassWeight = true) :=
  ⟨by simp [trainingPhases],
   (loss_same_both_phases 10 false).1 phase2 (by simp [trainingPhases])⟩

/-- C5: the executed phase list is always exactly phase 1 followed by
phase 2 — identical whether or not early stopping ended phase 1, with no
conditional skip — and phase 2 has the backbone trainable with a fixed
learning rate of 1e-5 while phase 1 uses a cosine-decaying rate starting
at 1e-3. -/
theorem phase2_always_follows_phase1 (epochs : Int) (stopped : Bool) :
    trainingPhases epochs stopped = [phase1 epochs, phase2] ∧
    trainingPhases epochs true = trainingPhases epochs false ∧
    phase2.baseModelTrainable = true ∧
    phase2.schedule = .constant (1 / 100000) ∧
    (phase1 epochs).baseModelTrainable = false ∧
    (phase1 epochs).schedule = .cosineDecay (1 / 1000) (epochs * 1000) :=
  ⟨rfl, rfl, rfl, rfl, rfl, rfl⟩

/-- C8: the augmentation stage is exactly the fixed composition of
horizontal flip, rotation up to 10% of a full turn, zoom up to 15%,
contrast jitter up to 20% and brightness jitter up to 20%, and it is
active in training mode only, not on validation data. -/
theorem augmentation_fixed_and_training_only :
    data_augmentation =
      [ .randomFlip "horizontal"
      , .randomRotation (1 / 10)
      , .randomZoom (3 / 20)
      , .randomContrast (1 / 5)
      , .randomBrightness (1 / 5) ] ∧
    augmentationActive trainingMode = true ∧
    augmentationActive validationMode = false :=
  ⟨rfl, rfl, rfl⟩

end AgriShield

namespace AgriShield

/-- C4: with well-formed epoch configuration, a run whose dataset root is
missing exits nonzero after printing the diagnostic that names
PLANTVILLAGE_DIR and creates no artifact (no model, no checkpoint, no
class-name file), while a completed run with the root present exits zero
having written the checkpoint, the saved model and `class_names.txt`. -/
theorem missing_dir_vs_success (env : PyEnv) (ds : Dataset) (e f : Int)
    (hE : pyInt? (env.getd "EPOCHS" "10") = some e)
    (hF : pyInt? (env.getd "EPOCHS_FINE" "5") = some f) :
    ((runTrain env false ds).exitCode ≠ 0 ∧
      "Set PLANTVILLAGE_DIR to the root containing class subfolders." ∈
        (runTrain env false ds).printed ∧
      (runTrain env false ds).artifacts = [] ∧
      (runTrain env false ds).classNamesFile = []) ∧
    ((runTrain env true ds).exitCode = 0 ∧
      (runTrain env true ds).artifacts =
        ["best_model.h5", env.getd "OUTPUT_PATH" "model.h5", "class_names.txt"]) := by
  simp [runTrain, hE, hF]

/-- C4 witness: the empty environment parses (defaults 10 and 5), and
the conclusion holds for it on the empty dataset. -/
theorem missing_dir_vs_success_witness :
    (pyInt? ((PyEnv.mk []).getd "EPOCHS" "10") = some 10 ∧
      pyInt? ((PyEnv.mk []).getd "EPOCHS_FINE" "5") = some 5) ∧
    (((runTrain ⟨[]⟩ false ⟨[]⟩).exitCode ≠ 0 ∧
      "Set PLANTVILLAGE_DIR to the root containing class subfolders." ∈
        (runTrain ⟨[]⟩ false ⟨[]⟩).printed ∧
      (runTrain ⟨[]⟩ false ⟨[]⟩).artifacts = [] ∧
      (runTrain ⟨[]⟩ false ⟨[]⟩).classNamesFile = []) ∧
    ((runTrain ⟨[]⟩ true ⟨[]⟩).exitCode = 0 ∧
      (runTrain ⟨[]⟩ true ⟨[]⟩).artifacts =
        ["best_model.h5", (PyEnv.mk []).getd "OUTPUT_PATH" "model.h5", "class_names.txt"])) :=
  ⟨⟨by decide, by decide⟩,
   missing_dir_vs_success ⟨[]⟩ ⟨[]⟩ 10 5 (by decide) (by decide)⟩

/-- C10: when EPOCHS or EPOCHS_FINE is set to a string that does not
parse as an integer, the run exits nonzero, the configuration diagnostic
is never printed, no artifact is created, and the outcome is identical
whether or not the dataset directory exists — the directory check never
influences the result. -/
theorem bad_epochs_aborts (env : PyEnv) (ds : Dataset) (dirExists : Bool)
    (h : pyInt? (env.getd "EPOCHS" "10") = none ∨
         pyInt? (env.getd "EPOCHS_FINE" "5") = none) :
    (runTrain env dirExists ds).exitCode ≠ 0 ∧
    "Set PLANTVILLAGE_DIR to the root containing class subfolders." ∉
      (runTrain env dirExists ds).printed ∧
    (runTrain env dirExists ds).artifacts = [] ∧
    runTrain env dirExists ds = runTrain env (!dirExists) ds := by
  rcases h with h | h
  · simp [runTrain, h]
  · cases hE : pyInt? (env.getd "EPOCHS" "10") <;> simp [runTrain, hE, h]

/-- C10 witness: EPOCHS set to `abc` does not parse, and the conclusion
holds with the dataset directory present. -/
theorem bad_epochs_aborts_witness :
    (pyInt? ((PyEnv.mk [("EPOCHS", "abc")]).getd "EPOCHS" "10") = none ∨
      pyInt? ((PyEnv.mk [("EPOCHS", "abc")]).getd "EPOCHS_FINE" "5") = none) ∧
    ((runTrain ⟨[("EPOCHS", "abc")]⟩ true ⟨[]⟩).exitCode ≠ 0 ∧
      "Set PLANTVILLAGE_DIR to the root containing class subfolders." ∉
        (runTrain ⟨[("EPOCHS", "abc")]⟩ true ⟨[]⟩).printed ∧
      (runTrain ⟨[("EPOCHS", "abc")]⟩ true ⟨[]⟩).artifacts = [] ∧
      runTrain ⟨[("EPOCHS", "abc")]⟩ true ⟨[]⟩ =
        runTrain ⟨[("EPOCHS", "abc")]⟩ (!true) ⟨[]⟩) :=
  ⟨Or.inl (by decide),
   bad_epochs_aborts ⟨[("EPOCHS", "abc")]⟩ ⟨[]⟩ true (Or.inl (by decide))⟩

/-- C6: both loader calls share seed 123 and the same validation split;
for a fixed file list and equal seeds the produced partition is
identical (every file is assigned to the same subset in both runs), and
for a length-preserving shuffle the split is 80/20: the validation part
holds `n / 5` of the `n` files and the training part the remaining
`n - n / 5`. -/
theorem split_deterministic (shuffle : Nat → List String → List String)
    (files : List String) (dataDir : String) (seed1 seed2 : Nat) (f : String)
    (hlen : ∀ s l, (shuffle s l).length = l.length)
    (hseed : seed1 = seed2) :
    (trainDsArgs dataDir).seed = 123 ∧
    (valDsArgs dataDir).seed = (trainDsArgs dataDir).seed ∧
    (valDsArgs dataDir).validationSplit = (trainDsArgs dataDir).validationSplit ∧
    datasetSplit shuffle files seed1 = datasetSplit shuffle files seed2 ∧
    (f ∈ (datasetSplit shuffle files seed1).1 ↔ f ∈ (datasetSplit shuffle files seed2).1) ∧
    (f ∈ (datasetSplit shuffle files seed1).2 ↔ f ∈ (datasetSplit shuffle files seed2).2) ∧
    (datasetSplit shuffle files seed1).2.length = files.length / 5 ∧
    (datasetSplit shuffle files seed1).1.length = files.length - files.length / 5 := by
  subst hseed
  refine ⟨rfl, rfl, rfl, rfl, Iff.rfl, Iff.rfl, ?_, ?_⟩
  · simp only [datasetSplit, List.length_drop, hlen]
    omega
  · simp only [datasetSplit, List.length_take, hlen]
    omega

/-- C6 witness: the identity shuffle on five files with seed 123 in both
runs — four training files, one validation file, identical partitions. -/
theorem split_deterministic_witness :
    (123 = 123) ∧
    ((trainDsArgs "data/plantvillage").seed = 123 ∧
      (valDsArgs "data/plantvillage").seed = (trainDsArgs "data/plantvillage").seed ∧
      (valDsArgs "data/plantvillage").validationSplit =
        (trainDsArgs "data/plantvillage").validationSplit ∧
      datasetSplit (fun _ l => l) ["a", "b", "c", "d", "e"] 123 =
        datasetSplit (fun _ l => l) ["a", "b", "c", "d", "e"] 123 ∧
      ("a" ∈ (datasetSplit (fun _ l => l) ["a", "b", "c", "d", "e"] 123).1 ↔
        "a" ∈ (datasetSplit (fun _ l => l) ["a", "b", "c", "d", "e"] 123).1) ∧
      ("a" ∈ (datasetSplit (fun _ l => l) ["a", "b", "c", "d", "e"] 123).2 ↔
        "a" ∈ (datasetSplit (fun _ l => l) ["a", "b", "c", "d", "e"] 123).2) ∧
      (datasetSplit (fun _ l => l) ["a", "b", "c", "d", "e"] 123).2.length =
        (["a", "b", "c", "d", "e"] : List String).length / 5 ∧
      (datasetSplit (fun _ l => l) ["a", "b", "c", "d", "e"] 123).1.length =
        (["a", "b", "c", "d", "e"] : List String).length -
          (["a", "b", "c", "d", "e"] : List String).length / 5) :=
  ⟨rfl,
   split_deterministic (fun _ l => l) ["a", "b", "c", "d", "e"] "data/plantvillage"
     123 123 "a" (fun _ _ => rfl) rfl⟩

end AgriShield

namespace AgriShield.Backend

/-- C7: GET /health returns status 200 with body `{"status":
"healthy"}` after any request history whatsoever, and GET / returns
status 200 with a welcome message and `"status": "active"` in the
body. -/
theorem health_and_root_responses (history : List Request) :
    serve history .health = { status := 200, body := [("status", "healthy")] } ∧
    serve history .health = serve [] .health ∧
    (serve history .root).status = 200 ∧
    ("status", "active") ∈ (serve history .root).body ∧
    ("message", "Welcome to AgriShield AI Backend") ∈ (serve history .root).body := by
  refine ⟨rfl, rfl, rfl, ?_, ?_⟩ <;> simp [serve, handle, read_root]

/-- C9: the CORS configuration lists the two localhost origins and the
wildcard, so every origin whatsoever is permitted, with credentials,
all methods and all headers allowed. -/
theorem cors_effectively_unrestricted (origin : String) :
    corsConfig.allowOrigins = ["http://localhost:5173", "http://localhost:3000", "*"] ∧
    originAllowed corsConfig "http://localhost:5173" = true ∧
    originAllowed corsConfig "http://localhost:3000" = true ∧
    originAllowed corsConfig origin = true ∧
    corsConfig.allowCredentials = true ∧
    corsConfig.allowMethods = ["*"] ∧
    corsConfig.allowHeaders = ["*"] := by
  have h : origins.contains "*" = true := by decide
  refine ⟨rfl, by decide, by decide, ?_, rfl, rfl, rfl⟩
  simp only [originAllowed, corsConfig, h, Bool.or_true]

end AgriShield.Backend
